import Mathlib

/-!
Shallow embedding of the session lifecycle manager, tool dispatch surface,
connection strategy resolver and ancestor-HTML ascent of the
checksum-ai/playwright-mcp source (src/context.ts, src/server.ts,
src/tools/snapshot.ts), together with theorems settling the spec claims.
-/

/-- Outcome with which a single initialization attempt settles: either a
connected browser handle together with the first page of its first context
(src/context.ts lines 59-72), or a connection error (`createBrowser`
rejecting). -/
inductive InitOutcome where
  | ok (browserId pageId : Nat)
  | err (msg : String)
  deriving DecidableEq

/-- State of the `Context` class from src/context.ts.  Promises are tracked by
identity: `initPromise` is the cached `_initializePromise` (by promise id),
`inFlight` is the promise whose async body is still running, `settled` records
each promise's eventual outcome, and `waiters` records, per `_initialize`
caller, which promise it awaits.  `attempts` counts `createBrowser`
invocations (one per started initialization body), and `detached` records
browsers whose `close()` was fired without being awaited
(`void browser?.close()` in `_reset`, line 92). -/
structure CtxState where
  initPromise : Option Nat
  inFlight : Option Nat
  settled : List (Nat × InitOutcome)
  browser : Option Nat
  page : Option Nat
  console : List Nat
  attempts : Nat
  nextPromiseId : Nat
  waiters : List (Nat × Nat)
  detached : List Nat
  deriving DecidableEq

/-- The freshly constructed `Context` (src/context.ts lines 26-32): nothing
cached, nothing connected, empty console buffer. -/
def initialCtx : CtxState := ⟨none, none, [], none, none, [], 0, 0, [], []⟩

/-- The synchronous prefix of `_initialize` run by an `ensurePage()` caller
(src/context.ts lines 53-55): if `_initializePromise` is set, the caller just
awaits it; otherwise a new promise is created and cached *before* any await,
its async body starts (invoking `createBrowser`, counted in `attempts`), and
the caller awaits the new promise. -/
def ensurePageCall (caller : Nat) (s : CtxState) : CtxState :=
  match s.initPromise with
  | some pid => { s with waiters := s.waiters ++ [(caller, pid)] }
  | none =>
      { s with
          initPromise := some s.nextPromiseId
          inFlight := some s.nextPromiseId
          attempts := s.attempts + 1
          nextPromiseId := s.nextPromiseId + 1
          waiters := s.waiters ++ [(caller, s.nextPromiseId)] }

/-- The in-flight initialization body completing (src/context.ts lines 55-82):
on success the browser and its first page are stored; on failure the promise
rejects.  In both cases the settled outcome is recorded for the promise and —
exactly as in the source, which has no `catch`/`finally` clearing
`_initializePromise` — the cached promise reference is left in place. -/
def settleInit (o : InitOutcome) (s : CtxState) : CtxState :=
  match s.inFlight with
  | none => s
  | some pid =>
      match o with
      | .ok b p =>
          { s with inFlight := none, browser := some b, page := some p,
                   settled := s.settled ++ [(pid, o)] }
      | .err _ =>
          { s with inFlight := none, settled := s.settled ++ [(pid, o)] }

/-- `_reset` (src/context.ts lines 86-93): capture the browser handle, drop the
cached promise, the browser and the page, clear the console buffer, and fire
the browser's `close()` without awaiting it (recorded in `detached`). -/
def resetCtx (s : CtxState) : CtxState :=
  { s with initPromise := none, browser := none, page := none, console := [],
           detached := s.detached ++ s.browser.toList }

/-- Page events the initialization subscribes to (src/context.ts lines 77-81).
A frame navigation carries the navigating frame's parent frame
(`frame.parentFrame()`), `none` for the top-level frame. -/
inductive PageEvent where
  | consoleMsg (messageId : Nat)
  | frameNavigated (parentFrame : Option Nat)
  | pageClose
  deriving DecidableEq

/-- The three event handlers installed by `_initialize` (src/context.ts lines
77-81): console messages are appended to the buffer; a frame navigation clears
the buffer exactly when the navigating frame has no parent frame; a page close
triggers `_reset`. -/
def handleEvent (e : PageEvent) (s : CtxState) : CtxState :=
  match e with
  | .consoleMsg m => { s with console := s.console ++ [m] }
  | .frameNavigated none => { s with console := [] }
  | .frameNavigated (some _) => s
  | .pageClose => resetCtx s

/-- What a caller awaiting promise `pid` observes once it settles. -/
def observeOutcome (s : CtxState) (pid : Nat) : Option InitOutcome :=
  (s.settled.find? (fun q => q.1 == pid)).map (fun q => q.2)

/-- A sequence of `ensurePage()` calls issued from the fresh context before the
first initialization settles (no `settleInit` in between). -/
def ensureCalls (callers : List Nat) : CtxState :=
  callers.foldl (fun s c => ensurePageCall c s) initialCtx

/-- A context whose first initialization has succeeded (browser 3, page 4). -/
def readyCtx : CtxState := settleInit (InitOutcome.ok 3 4) (ensurePageCall 0 initialCtx)

/-- One content item of a tool result (src/server.ts lines 69-74, 81-84): the
dispatch surface only ever builds `text` items, so the payload is a string. -/
structure ContentItem where
  type : String
  text : String
  deriving DecidableEq

/-- The response envelope of the `callTool` handler (src/server.ts lines
66-86).  Success results built by handlers carry `isError := false`
(the source simply omits the field, which reads back as falsy). -/
structure ToolResult where
  content : List ContentItem
  isError : Bool
  deriving DecidableEq

/-- A JSON-ish argument value, enough to model zod validation of tool
arguments. -/
inductive JValue where
  | str (s : String)
  | num (n : Int)
  | bool (b : Bool)
  deriving DecidableEq

/-- A JSON object: the `request.params.arguments` record. -/
abbrev JObj := List (String × JValue)

/-- Instrumentation threaded through dispatch: how many times a tool's
`handle` was invoked, and how many page operations were performed. -/
structure Effects where
  handlerCalls : Nat
  pageOps : Nat
  deriving DecidableEq

/-- A registered tool: unique name plus handler.  A handler may fail
(`Except.error`), modelling a thrown error whose `String(error)` rendering is
the payload. -/
structure McpTool where
  name : String
  handle : JObj → Effects → Except String ToolResult × Effects

/-- The `Tool "<name>" not found` envelope (src/server.ts lines 68-75). -/
def notFoundResult (toolName : String) : ToolResult :=
  { content := [{ type := "text", text := "Tool \"" ++ toolName ++ "\" not found" }],
    isError := true }

/-- The catch-branch envelope wrapping a thrown error (src/server.ts lines
80-85). -/
def errorResult (msg : String) : ToolResult :=
  { content := [{ type := "text", text := msg }], isError := true }

/-- The `CallToolRequestSchema` handler (src/server.ts lines 66-86): look the
tool up by name (`Array.find`), return the not-found envelope if absent,
otherwise invoke its `handle` (counted in `handlerCalls`) and catch any error
it raises, converting it into the structured error envelope. -/
def callTool (tools : List McpTool) (toolName : String) (args : JObj) (eff : Effects) :
    ToolResult × Effects :=
  match tools.find? (fun t => t.name == toolName) with
  | none => (notFoundResult toolName, eff)
  | some t =>
      match t.handle args { eff with handlerCalls := eff.handlerCalls + 1 } with
      | (Except.ok r, eff2) => (r, eff2)
      | (Except.error e, eff2) => (errorResult e, eff2)

/-- Field lookup in a JSON object. -/
def lookupField (o : JObj) (key : String) : Option JValue :=
  (o.find? (fun q => q.1 == key)).map (fun q => q.2)

/-- zod validation of the navigate tool's arguments
(`navigateSchema = z.object({ url: z.string() })`, src/server.ts related doc
lines 138-140): succeeds exactly when a string `url` field is present.  The
exact error text of the external zod library is modelled by fixed
descriptive strings. -/
def parseNavigateArgs (o : JObj) : Except String String :=
  match lookupField o "url" with
  | some (JValue.str u) => Except.ok u
  | some _ => Except.error "ZodError: url: Expected string"
  | none => Except.error "ZodError: url: Required"

/-- The `browser_navigate` tool (src/server.ts related doc lines 142-168): its
handler first runs `navigateSchema.parse` — throwing on invalid arguments
before any page operation — then performs the navigation (a page operation,
counted in `pageOps`) and returns either a snapshot or a textual
confirmation.  The accessibility-snapshot capture is an external collaborator
(./utils, not part of the source under verification) and is represented by a
fixed text item. -/
def navigateTool (snapshotMode : Bool) : McpTool :=
  { name := "browser_navigate"
    handle := fun args eff =>
      match parseNavigateArgs args with
      | Except.error e => (Except.error e, eff)
      | Except.ok url =>
          let eff2 : Effects := { eff with pageOps := eff.pageOps + 1 }
          if snapshotMode then
            (Except.ok { content := [{ type := "text", text := "- aria snapshot" }],
                         isError := false }, eff2)
          else
            (Except.ok { content := [{ type := "text", text := "Navigated to " ++ url }],
                         isError := false }, eff2) }

/-- A tool whose handler always throws, used to exercise the dispatch
catch-branch. -/
def failTool (msg : String) : McpTool :=
  { name := "boom_tool", handle := fun _ eff => (Except.error msg, eff) }

/-- The connection environment read by `createBrowser` (src/context.ts lines
102-110): `process.env.PLAYWRIGHT_WS_ENDPOINT` and
`process.env.CHROME_DEBUGGING_PORT`. -/
structure BrowserEnv where
  playwrightWsEndpoint : Option String
  chromeDebuggingPort : Option String
  deriving DecidableEq

/-- The single connection attempt `createBrowser` makes: a remote websocket
connect (with the launch options forwarded as the `launch-options` URL search
parameter), a CDP attach to a local endpoint, or a fresh launch. -/
inductive ConnAttempt where
  | connect (wsEndpoint : String) (launchOptionsParam : String)
  | connectOverCDP (endpoint : String)
  | launch (channel : String) (launchOptions : String)
  deriving DecidableEq

/-- The three mutually exclusive connection strategies. -/
inductive ConnStrategy where
  | remoteConnect
  | cdpAttach
  | freshLaunch
  deriving DecidableEq

/-- Which strategy a connection attempt embodies. -/
def strategyOf : ConnAttempt → ConnStrategy
  | .connect _ _ => .remoteConnect
  | .connectOverCDP _ => .cdpAttach
  | .launch _ _ => .freshLaunch

/-- The debugging port used by the CDP strategy
(`process.env.CHROME_DEBUGGING_PORT || 9222`, src/context.ts line 110):
a missing — or, per JavaScript falsiness, empty — environment value defaults
to the fixed well-known port 9222. -/
def cdpPort (env : BrowserEnv) : String :=
  match env.chromeDebuggingPort with
  | none => "9222"
  | some p => if p = "" then "9222" else p

/-- `createBrowser` (src/context.ts lines 96-117): log `"createBrowser"`;
if a remote endpoint is configured, connect there with the launch options
attached as URL metadata; otherwise, in CDP mode, log `"createBrowser useCDP"`
and attach to the local debugging port; otherwise launch a fresh `chrome`
instance.  The function returns the log entries emitted before the connection
attempt together with the single attempt made (failures propagate — there is
no fallback from one strategy to another). -/
def createBrowser (env : BrowserEnv) (launchOptions : String) (useCDP : Bool) :
    List String × ConnAttempt :=
  match env.playwrightWsEndpoint with
  | some ws => (["createBrowser"], ConnAttempt.connect ws launchOptions)
  | none =>
      if useCDP then
        (["createBrowser", "createBrowser useCDP"],
          ConnAttempt.connectOverCDP ("http://127.0.0.1:" ++ cdpPort env))
      else
        (["createBrowser"], ConnAttempt.launch "chrome" launchOptions)

/-- A DOM element as seen by the ancestor ascent: its tag name — carried here
already lowercased, since the source reads `el.tagName.toLowerCase()` before
every comparison — and its serialized outer HTML. -/
structure DomNode where
  tag : String
  html : String
  deriving DecidableEq

/-- The root-level check of the ascent: the (lowercased) tag name compared
against `body`/`html` (src/tools/snapshot.ts lines 214-217). -/
def isRootTag (t : String) : Bool := t == "body" || t == "html"

/-- The `while (true)` ascent of `getElementAncestorHTML`
(src/tools/snapshot.ts lines 200-219), over an ancestor chain `chain` where
`chain 0` is the referenced element and `chain (i+1)` is the parent of
`chain i` (the `locator('..')` query).  Each iteration queries the parent's
outer HTML; if it exceeds 8000 characters the current element's HTML is
returned; otherwise the ascent moves to the parent and returns its HTML if its
tag is body/html.  The source loop has no iteration cap; `fuel` merely indexes
its finite unfoldings (`none` = the loop has not exited within `fuel`
iterations).  The external prettier `formatHTML` step is the identity here:
the claims concern which element's HTML is returned. -/
def ascendLoop (chain : Nat → DomNode) : Nat → Nat → String → Option String
  | 0, _, _ => none
  | fuel + 1, i, currentHTML =>
      if 8000 < (chain (i + 1)).html.length then some currentHTML
      else if isRootTag (chain (i + 1)).tag then some (chain (i + 1)).html
      else ascendLoop chain fuel (i + 1) (chain (i + 1)).html

/-- Running the ascent from the referenced element (src/tools/snapshot.ts
lines 196-219): the starting `currentHTML` is the element's own outer HTML. -/
def getAncestorHTML (chain : Nat → DomNode) (fuel : Nat) : Option String :=
  ascendLoop chain fuel 0 (chain 0).html

/-- The loop's exit condition at a parent element: its serialization exceeds
8000 characters, or its tag is body/html. -/
def stepExit (e : DomNode) : Bool := (8000 < e.html.length) || isRootTag e.tag

/-- The ascent never exits: no finite number of loop iterations produces a
result. -/
def ascendDiverges (chain : Nat → DomNode) : Prop :=
  ∀ fuel, getAncestorHTML chain fuel = none

/-- A malformed DOM chain: the parent query keeps yielding elements whose tag
is never body/html and whose serialization stays under the 8000-character
ceiling. -/
def badChain : Nat → DomNode := fun _ => { tag := "div", html := "<div></div>" }

/-- An 8001-character serialization, exceeding the 8000-character ceiling. -/
def bigHTML : String := String.mk (List.replicate 8001 'x')

/-- A well-formed chain: element, one div ancestor, then body. -/
def chainA : Nat → DomNode := fun i =>
  if i = 0 then { tag := "span", html := "<span>x</span>" }
  else if i = 1 then { tag := "div", html := "<div>y</div>" }
  else { tag := "body", html := "<body>z</body>" }

/-- A chain whose 1st and 2nd ancestors are small non-root divs and whose 3rd
ancestor's serialization exceeds 8000 characters. -/
def chainB : Nat → DomNode := fun i =>
  if i ≤ 2 then { tag := "div", html := "<div></div>" }
  else { tag := "section", html := bigHTML }

/-- The `close` override installed by `createServerWithTools` (src/server.ts
lines 99-102): `server.close = async () => { await server.close(); await
context.close(); }`.  At call time `server.close` resolves to the reassigned
handler itself, so each invocation first awaits another full invocation of
itself.  `fuel` bounds the recursion depth inspected: `none` means the call
has not completed within that depth; a completed call would return the list of
teardown steps it performed, with `"context.close"` appended after the inner
await returns. -/
def overriddenClose : Nat → Option (List String)
  | 0 => none
  | fuel + 1 =>
      match overriddenClose fuel with
      | none => none
      | some steps => some (steps ++ ["context.close"])

theorem ensurePageCall_cached (caller : Nat) (s : CtxState) (pid : Nat)
    (h : s.initPromise = some pid) :
    ensurePageCall caller s = { s with waiters := s.waiters ++ [(caller, pid)] } := by
  simp [ensurePageCall, h]

theorem foldl_ensure_cached (l : List Nat) (s : CtxState) (pid : Nat)
    (h : s.initPromise = some pid) :
    l.foldl (fun t c => ensurePageCall c t) s =
      { s with waiters := s.waiters ++ l.map (fun c => (c, pid)) } := by
  induction l generalizing s with
  | nil => simp
  | cons c rest ih =>
      rw [List.foldl_cons, ensurePageCall_cached c s pid h]
      rw [ih _ (by simp [h])]
      simp

/-- C2: for every nonempty sequence of `ensurePage()`/`acquirePage()` calls
issued before the first initialization completes, exactly one connection
attempt (`createBrowser` invocation) occurs, every caller awaits the single
cached initialization promise (promise 0), and once the attempt settles all
callers observe the same outcome. -/
theorem ctx_single_flight_shared_outcome (callers : List Nat) (o : InitOutcome)
    (hne : callers ≠ []) :
    (ensureCalls callers).attempts = 1 ∧
    (ensureCalls callers).initPromise = some 0 ∧
    (ensureCalls callers).waiters = callers.map (fun c => (c, 0)) ∧
    ∀ w ∈ (settleInit o (ensureCalls callers)).waiters,
      observeOutcome (settleInit o (ensureCalls callers)) w.2 = some o := by
  obtain ⟨c, rest, rfl⟩ : ∃ c rest, callers = c :: rest := by
    cases callers with
    | nil => exact absurd rfl hne
    | cons c r => exact ⟨c, r, rfl⟩
  have h1 : ensurePageCall c initialCtx =
      ⟨some 0, some 0, [], none, none, [], 1, 1, [(c, 0)], []⟩ := rfl
  have h2 : ensureCalls (c :: rest) =
      ⟨some 0, some 0, [], none, none, [], 1, 1, (c, 0) :: rest.map (fun x => (x, 0)), []⟩ := by
    rw [ensureCalls, List.foldl_cons, h1, foldl_ensure_cached rest _ 0 rfl]
    simp
  refine ⟨by rw [h2], by rw [h2], by rw [h2]; rfl, ?_⟩
  intro w hw
  rw [h2] at hw ⊢
  cases o with
  | ok b p =>
      have hs : settleInit (InitOutcome.ok b p)
          (⟨some 0, some 0, [], none, none, [], 1, 1,
            (c, 0) :: rest.map (fun x => (x, 0)), []⟩ : CtxState) =
          ⟨some 0, none, [(0, InitOutcome.ok b p)], some b, some p, [], 1, 1,
            (c, 0) :: rest.map (fun x => (x, 0)), []⟩ := rfl
      rw [hs] at hw ⊢
      have hw2 : w.2 = 0 := by
        rcases List.mem_cons.mp hw with h | h
        · rw [h]
        · obtain ⟨x, _, rfl⟩ := List.mem_map.mp h
          rfl
      rw [observeOutcome, hw2]
      rfl
  | err m =>
      have hs : settleInit (InitOutcome.err m)
          (⟨some 0, some 0, [], none, none, [], 1, 1,
            (c, 0) :: rest.map (fun x => (x, 0)), []⟩ : CtxState) =
          ⟨some 0, none, [(0, InitOutcome.err m)], none, none, [], 1, 1,
            (c, 0) :: rest.map (fun x => (x, 0)), []⟩ := rfl
      rw [hs] at hw ⊢
      have hw2 : w.2 = 0 := by
        rcases List.mem_cons.mp hw with h | h
        · rw [h]
        · obtain ⟨x, _, rfl⟩ := List.mem_map.mp h
          rfl
      rw [observeOutcome, hw2]
      rfl

/-- Witness for C2 at the concrete call sequence [5, 7, 9] with a successful
connection outcome. -/
theorem ctx_single_flight_shared_outcome_witness :
    ([5, 7, 9] : List Nat) ≠ [] ∧
    ((ensureCalls [5, 7, 9]).attempts = 1 ∧
     (ensureCalls [5, 7, 9]).initPromise = some 0 ∧
     (ensureCalls [5, 7, 9]).waiters = ([5, 7, 9] : List Nat).map (fun c => (c, 0)) ∧
     ∀ w ∈ (settleInit (InitOutcome.ok 2 3) (ensureCalls [5, 7, 9])).waiters,
       observeOutcome (settleInit (InitOutcome.ok 2 3) (ensureCalls [5, 7, 9])) w.2 =
         some (InitOutcome.ok 2 3)) :=
  ⟨by decide, ctx_single_flight_shared_outcome [5, 7, 9] (InitOutcome.ok 2 3) (by decide)⟩

/-- C1 (code bug): when the first initialization fails, the failure does
surface to the caller (it observes the rejected outcome), but — contrary to
the claim — the failed attempt's promise *is* kept cached: a second
`ensurePage()` call finds `_initializePromise` still set, so no fresh
`createBrowser` attempt happens (`attempts` stays 1, nothing is in flight) and
the second caller awaits the same promise 0, which settled with the original
`ECONNREFUSED` failure.  The session is permanently stuck after a connection
failure. -/
theorem ctx_failed_init_promise_stays_cached :
    observeOutcome (settleInit (InitOutcome.err "ECONNREFUSED") (ensurePageCall 0 initialCtx)) 0 =
      some (InitOutcome.err "ECONNREFUSED") ∧
    (ensurePageCall 1 (settleInit (InitOutcome.err "ECONNREFUSED")
        (ensurePageCall 0 initialCtx))).attempts = 1 ∧
    (ensurePageCall 1 (settleInit (InitOutcome.err "ECONNREFUSED")
        (ensurePageCall 0 initialCtx))).initPromise = some 0 ∧
    (ensurePageCall 1 (settleInit (InitOutcome.err "ECONNREFUSED")
        (ensurePageCall 0 initialCtx))).inFlight = none ∧
    (ensurePageCall 1 (settleInit (InitOutcome.err "ECONNREFUSED")
        (ensurePageCall 0 initialCtx))).waiters = [(0, 0), (1, 0)] := by
  decide

/-- C4: a page-close event runs `_reset`: the cached initialization promise,
the page handle and the browser handle are discarded, the console buffer is
cleared, the browser's `close()` is fired without being awaited (recorded as a
detached release), and the next `ensurePage()` call starts a fresh
initialization — a new `createBrowser` attempt with a new promise. -/
theorem ctx_reset_on_page_close (s : CtxState) (b c : Nat)
    (hb : s.browser = some b) :
    (handleEvent PageEvent.pageClose s).initPromise = none ∧
    (handleEvent PageEvent.pageClose s).browser = none ∧
    (handleEvent PageEvent.pageClose s).page = none ∧
    (handleEvent PageEvent.pageClose s).console = [] ∧
    (handleEvent PageEvent.pageClose s).detached = s.detached ++ [b] ∧
    (ensurePageCall c (handleEvent PageEvent.pageClose s)).attempts = s.attempts + 1 ∧
    (ensurePageCall c (handleEvent PageEvent.pageClose s)).inFlight = some s.nextPromiseId := by
  refine ⟨rfl, rfl, rfl, rfl, by simp [handleEvent, resetCtx, hb], ?_, ?_⟩ <;>
    simp [handleEvent, resetCtx, ensurePageCall]

/-- Witness for C4 at a concrete ready context (browser 3, page 4). -/
theorem ctx_reset_on_page_close_witness :
    readyCtx.browser = some 3 ∧
    ((handleEvent PageEvent.pageClose readyCtx).initPromise = none ∧
     (handleEvent PageEvent.pageClose readyCtx).browser = none ∧
     (handleEvent PageEvent.pageClose readyCtx).page = none ∧
     (handleEvent PageEvent.pageClose readyCtx).console = [] ∧
     (handleEvent PageEvent.pageClose readyCtx).detached = readyCtx.detached ++ [3] ∧
     (ensurePageCall 7 (handleEvent PageEvent.pageClose readyCtx)).attempts =
       readyCtx.attempts + 1 ∧
     (ensurePageCall 7 (handleEvent PageEvent.pageClose readyCtx)).inFlight =
       some readyCtx.nextPromiseId) :=
  ⟨by decide, ctx_reset_on_page_close readyCtx 3 7 (by decide)⟩

/-- C5: the console buffer is cleared exactly when the navigating frame has no
parent frame (top-level navigation) and never on a child-frame navigation;
messages appended after a child-frame navigation remain present. -/
theorem console_cleared_on_top_level_navigation_only (s : CtxState) (m k : Nat) :
    (handleEvent (PageEvent.frameNavigated none) s).console = [] ∧
    (handleEvent (PageEvent.frameNavigated (some k)) s).console = s.console ∧
    (handleEvent (PageEvent.frameNavigated (some k))
        (handleEvent (PageEvent.consoleMsg m) s)).console = s.console ++ [m] := by
  refine ⟨rfl, rfl, rfl⟩

/-- C6: domain failures never escape the dispatch surface as thrown faults:
`callTool` on an absent tool name returns the `{isError: true}` not-found
envelope with the requested name present in the text, and `callTool` on a
present tool whose handler raises an error returns the same structured
envelope carrying the error's message. -/
theorem call_tool_error_envelope (tools : List McpTool) (toolName : String)
    (args : JObj) (eff : Effects) :
    (tools.find? (fun t => t.name == toolName) = none →
        callTool tools toolName args eff = (notFoundResult toolName, eff) ∧
        (notFoundResult toolName).isError = true ∧
        ∃ pre post, (notFoundResult toolName).content =
          [{ type := "text", text := pre ++ toolName ++ post }]) ∧
    (∀ t e eff2, tools.find? (fun t => t.name == toolName) = some t →
        t.handle args { eff with handlerCalls := eff.handlerCalls + 1 } =
          (Except.error e, eff2) →
        callTool tools toolName args eff = (errorResult e, eff2)) := by
  constructor
  · intro h
    exact ⟨by simp [callTool, h], rfl, "Tool \"", "\" not found", rfl⟩
  · intro t e eff2 hf hh
    simp [callTool, hf, hh]

/-- Witness for C6: a lookup in an empty registry yields the not-found
envelope naming the requested tool, and a tool that throws "boom" yields the
error envelope. -/
theorem call_tool_error_envelope_witness :
    callTool [] "nonexistent_tool" [] ⟨0, 0⟩ = (notFoundResult "nonexistent_tool", ⟨0, 0⟩) ∧
    (∃ pre post, (notFoundResult "nonexistent_tool").content =
      [{ type := "text", text := pre ++ "nonexistent_tool" ++ post }]) ∧
    callTool [failTool "boom"] "boom_tool" [] ⟨0, 0⟩ = (errorResult "boom", ⟨1, 0⟩) := by
  refine ⟨?_, ?_, ?_⟩
  · exact ((call_tool_error_envelope [] "nonexistent_tool" [] ⟨0, 0⟩).1 rfl).1
  · exact ((call_tool_error_envelope [] "nonexistent_tool" [] ⟨0, 0⟩).1 rfl).2.2
  · exact (call_tool_error_envelope [failTool "boom"] "boom_tool" [] ⟨0, 0⟩).2
      (failTool "boom") "boom" ⟨1, 0⟩ rfl rfl

/-- C7 counterexample: calling `browser_navigate` with a missing required
`url` field does return `{isError: true}` without performing any page
operation, but the tool's handler *is* invoked — the handler-invocation
counter reads one, not zero, because the schema `parse` runs inside the
handler and its failure is only caught at the dispatch boundary. -/
theorem call_tool_invalid_args_invokes_handler :
    (callTool [navigateTool false] "browser_navigate" [] ⟨0, 0⟩).1.isError = true ∧
    (callTool [navigateTool false] "browser_navigate" [] ⟨0, 0⟩).2.handlerCalls = 1 ∧
    (callTool [navigateTool false] "browser_navigate" [] ⟨0, 0⟩).2.pageOps = 0 := by
  decide

/-- C7 (amended): for every `browser_navigate` call whose arguments fail the
declared schema, the dispatch returns the `{isError: true}` envelope carrying
the validation error, no page operation is performed (`pageOps` unchanged),
and nothing crashes — the handler is invoked once and its parse failure is
caught at the dispatch boundary. -/
theorem call_tool_invalid_args_no_page_op (args : JObj) (eff : Effects) (e : String)
    (h : parseNavigateArgs args = Except.error e) :
    callTool [navigateTool false] "browser_navigate" args eff =
      (errorResult e, { eff with handlerCalls := eff.handlerCalls + 1 }) ∧
    (callTool [navigateTool false] "browser_navigate" args eff).2.pageOps = eff.pageOps := by
  have h1 : callTool [navigateTool false] "browser_navigate" args eff =
      (errorResult e, { eff with handlerCalls := eff.handlerCalls + 1 }) := by
    simp [callTool, navigateTool, h]
  exact ⟨h1, by rw [h1]⟩

/-- Witness for C7's amended theorem at empty arguments. -/
theorem call_tool_invalid_args_no_page_op_witness :
    parseNavigateArgs [] = Except.error "ZodError: url: Required" ∧
    (callTool [navigateTool false] "browser_navigate" [] ⟨2, 5⟩ =
      (errorResult "ZodError: url: Required", ⟨3, 5⟩) ∧
     (callTool [navigateTool false] "browser_navigate" [] ⟨2, 5⟩).2.pageOps = 5) :=
  ⟨rfl, call_tool_invalid_args_no_page_op [] ⟨2, 5⟩ "ZodError: url: Required" rfl⟩

/-- C8 counterexample: the remote-endpoint run and the fresh-launch run choose
different strategies yet emit identical logs, so the chosen strategy is *not*
logged before the connection attempt — only the CDP attach path is identified
by name in the log. -/
theorem create_browser_logs_do_not_identify_strategy :
    (createBrowser ⟨some "ws://example", none⟩ "opts" true).1 =
      (createBrowser ⟨none, none⟩ "opts" false).1 ∧
    strategyOf (createBrowser ⟨some "ws://example", none⟩ "opts" true).2 =
      ConnStrategy.remoteConnect ∧
    strategyOf (createBrowser ⟨none, none⟩ "opts" false).2 = ConnStrategy.freshLaunch := by
  decide

/-- C8 (amended): `createBrowser` uses exactly one of three mutually exclusive
strategies in fixed priority order — remote-endpoint connect (forwarding the
launch options as connection metadata) when the endpoint is configured, CDP
attach to the configured port (defaulting to the well-known 9222) in CDP mode,
and a fresh `chrome` launch otherwise — with no fallback between strategies.
A generic `"createBrowser"` log entry is always emitted before the attempt,
and only the CDP path additionally logs its selection. -/
theorem create_browser_strategy_selection (env : BrowserEnv) (opts : String)
    (useCDP : Bool) :
    (∀ ws, env.playwrightWsEndpoint = some ws →
        (createBrowser env opts useCDP).2 = ConnAttempt.connect ws opts ∧
        (createBrowser env opts useCDP).1 = ["createBrowser"]) ∧
    (env.playwrightWsEndpoint = none → useCDP = true →
        (createBrowser env opts useCDP).2 =
          ConnAttempt.connectOverCDP ("http://127.0.0.1:" ++ cdpPort env) ∧
        (createBrowser env opts useCDP).1 = ["createBrowser", "createBrowser useCDP"]) ∧
    (env.playwrightWsEndpoint = none → useCDP = false →
        (createBrowser env opts useCDP).2 = ConnAttempt.launch "chrome" opts ∧
        (createBrowser env opts useCDP).1 = ["createBrowser"]) ∧
    (env.chromeDebuggingPort = none → cdpPort env = "9222") ∧
    (createBrowser env opts useCDP).1.head? = some "createBrowser" := by
  refine ⟨?_, ?_, ?_, ?_, ?_⟩
  · intro ws h
    exact ⟨by simp [createBrowser, h], by simp [createBrowser, h]⟩
  · intro h hc
    subst hc
    exact ⟨by simp [createBrowser, h], by simp [createBrowser, h]⟩
  · intro h hc
    subst hc
    exact ⟨by simp [createBrowser, h], by simp [createBrowser, h]⟩
  · intro h
    simp [cdpPort, h]
  · rcases henv : env.playwrightWsEndpoint with _ | ws <;> cases useCDP <;>
      simp [createBrowser, henv]

/-- Witness for C8's amended theorem: with no endpoint configured and CDP mode
selected, the attempt is a CDP attach to the default port and both log entries
are emitted. -/
theorem create_browser_strategy_selection_witness :
    (createBrowser ⟨none, none⟩ "opts" true).2 =
      ConnAttempt.connectOverCDP ("http://127.0.0.1:" ++ cdpPort ⟨none, none⟩) ∧
    (createBrowser ⟨none, none⟩ "opts" true).1 = ["createBrowser", "createBrowser useCDP"] :=
  (create_browser_strategy_selection ⟨none, none⟩ "opts" true).2.1 rfl rfl

/-- C10: the self-referential `close` override never completes at any
recursion depth — each invocation first awaits the reassigned handler itself —
so the `context.close()` step after the inner await is never reached. -/
theorem overridden_close_never_completes : ∀ fuel, overriddenClose fuel = none := by
  intro fuel
  induction fuel with
  | zero => rfl
  | succ f ih => simp [overriddenClose, ih]

theorem bigHTML_length : bigHTML.length = 8001 := by
  show (List.replicate 8001 'x').length = 8001
  exact List.length_replicate 8001 'x'

theorem ascendLoop_step_size (chain : Nat → DomNode) (fuel i : Nat) (cur : String)
    (h : 8000 < (chain (i + 1)).html.length) :
    ascendLoop chain (fuel + 1) i cur = some cur := by
  simp [ascendLoop, h]

theorem ascendLoop_step_root (chain : Nat → DomNode) (fuel i : Nat) (cur : String)
    (hs : (chain (i + 1)).html.length ≤ 8000)
    (hr : isRootTag (chain (i + 1)).tag = true) :
    ascendLoop chain (fuel + 1) i cur = some ((chain (i + 1)).html) := by
  have hs' : ¬ 8000 < (chain (i + 1)).html.length := by omega
  simp [ascendLoop, hs', hr]

theorem ascendLoop_step_continue (chain : Nat → DomNode) (fuel i : Nat) (cur : String)
    (hs : ¬ 8000 < (chain (i + 1)).html.length)
    (hr : isRootTag (chain (i + 1)).tag = false) :
    ascendLoop chain (fuel + 1) i cur = ascendLoop chain fuel (i + 1) ((chain (i + 1)).html) := by
  simp [ascendLoop, hs, hr]

theorem ascendLoop_reaches_root (chain : Nat → DomNode) (k : Nat) :
    ∀ (i fuel : Nat) (cur : String),
      (∀ j, j < k → isRootTag (chain (i + 1 + j)).tag = false) →
      (∀ j, j ≤ k → (chain (i + 1 + j)).html.length ≤ 8000) →
      isRootTag (chain (i + 1 + k)).tag = true →
      k < fuel →
      ascendLoop chain fuel i cur = some ((chain (i + 1 + k)).html) := by
  induction k with
  | zero =>
      intro i fuel cur hnr hsz hr hf
      obtain ⟨f, rfl⟩ : ∃ f, fuel = f + 1 := ⟨fuel - 1, by omega⟩
      have h0 := hsz 0 (Nat.le_refl 0)
      exact ascendLoop_step_root chain f i cur h0 hr
  | succ k ih =>
      intro i fuel cur hnr hsz hr hf
      obtain ⟨f, rfl⟩ : ∃ f, fuel = f + 1 := ⟨fuel - 1, by omega⟩
      have hs0 : ¬ 8000 < (chain (i + 1)).html.length := by
        have h0 := hsz 0 (by omega)
        simp at h0
        omega
      have hr0 : isRootTag (chain (i + 1)).tag = false := by
        have h0 := hnr 0 (by omega)
        simpa using h0
      rw [ascendLoop_step_continue chain f i cur hs0 hr0]
      have hnr2 : ∀ j, j < k → isRootTag (chain (i + 1 + 1 + j)).tag = false := by
        intro j hj
        have h0 := hnr (j + 1) (by omega)
        have e : i + 1 + (j + 1) = i + 1 + 1 + j := by omega
        rwa [e] at h0
      have hsz2 : ∀ j, j ≤ k → (chain (i + 1 + 1 + j)).html.length ≤ 8000 := by
        intro j hj
        have h0 := hsz (j + 1) (by omega)
        have e : i + 1 + (j + 1) = i + 1 + 1 + j := by omega
        rwa [e] at h0
      have hr2 : isRootTag (chain (i + 1 + 1 + k)).tag = true := by
        have e : i + 1 + (k + 1) = i + 1 + 1 + k := by omega
        rwa [e] at hr
      rw [ih (i + 1) f ((chain (i + 1)).html) hnr2 hsz2 hr2 (by omega)]
      have e : i + 1 + 1 + k = i + 1 + (k + 1) := by omega
      rw [e]

/-- C3: the ancestor resolution of `browser_get_ancestor_html` — (i) on a
chain whose ancestors up to and including the first root-level element
(body/html, at position `1 + k`) all serialize to at most 8000 characters, the
ascent returns that root element's serialization; (ii) on a chain whose 1st
and 2nd ancestors are small non-root elements and whose 3rd ancestor's
serialization exceeds 8000 characters, the ascent returns the 2nd ancestor's
serialization (the last element under the ceiling); (iii) whenever the ascent
steps onto a root-level element it returns that element's serialization as is,
with no further size condition imposed on the returned value. -/
theorem ancestor_html_resolution :
    (∀ (chain : Nat → DomNode) (k fuel : Nat),
        (∀ j, j < k → isRootTag (chain (1 + j)).tag = false) →
        (∀ j, j ≤ k → (chain (1 + j)).html.length ≤ 8000) →
        isRootTag (chain (1 + k)).tag = true →
        k < fuel →
        getAncestorHTML chain fuel = some ((chain (1 + k)).html)) ∧
    (∀ (chain : Nat → DomNode) (fuel : Nat),
        3 ≤ fuel →
        isRootTag (chain 1).tag = false →
        isRootTag (chain 2).tag = false →
        (chain 1).html.length ≤ 8000 →
        (chain 2).html.length ≤ 8000 →
        8000 < (chain 3).html.length →
        getAncestorHTML chain fuel = some ((chain 2).html)) ∧
    (∀ (chain : Nat → DomNode) (fuel i : Nat) (cur : String),
        (chain (i + 1)).html.length ≤ 8000 →
        isRootTag (chain (i + 1)).tag = true →
        ascendLoop chain (fuel + 1) i cur = some ((chain (i + 1)).html)) := by
  refine ⟨?_, ?_, ?_⟩
  · intro chain k fuel hnr hsz hr hf
    have h := ascendLoop_reaches_root chain k 0 fuel ((chain 0).html)
      (by intro j hj; simpa using hnr j hj)
      (by intro j hj; simpa using hsz j hj)
      (by simpa using hr) hf
    simpa [getAncestorHTML] using h
  · intro chain fuel h3 hr1 hr2 hs1 hs2 hbig
    obtain ⟨f, rfl⟩ : ∃ f, fuel = f + 1 + 1 + 1 := ⟨fuel - 3, by omega⟩
    have s1 : ascendLoop chain (f + 1 + 1 + 1) 0 ((chain 0).html) =
        ascendLoop chain (f + 1 + 1) 1 ((chain 1).html) := by
      have h := ascendLoop_step_continue chain (f + 1 + 1) 0 ((chain 0).html)
        (by simp; omega) (by simpa using hr1)
      simpa using h
    have s2 : ascendLoop chain (f + 1 + 1) 1 ((chain 1).html) =
        ascendLoop chain (f + 1) 2 ((chain 2).html) := by
      have h := ascendLoop_step_continue chain (f + 1) 1 ((chain 1).html)
        (by simp; omega) (by simpa using hr2)
      simpa using h
    have s3 : ascendLoop chain (f + 1) 2 ((chain 2).html) = some ((chain 2).html) := by
      have h := ascendLoop_step_size chain f 2 ((chain 2).html) (by simpa using hbig)
      simpa using h
    rw [getAncestorHTML, s1, s2, s3]
  · intro chain fuel i cur hs hr
    exact ascendLoop_step_root chain fuel i cur hs hr

/-- Witness for C3 on concrete chains: `chainA` (all ancestors small, body at
position 2) yields body's serialization; `chainB` (3rd ancestor oversized)
yields the 2nd ancestor's serialization; and the root-exit step on `chainA`
returns body's serialization as is. -/
theorem ancestor_html_resolution_witness :
    (getAncestorHTML chainA 5 = some "<body>z</body>") ∧
    (getAncestorHTML chainB 9 = some "<div></div>") ∧
    ascendLoop chainA 4 1 "cur" = some "<body>z</body>" := by
  refine ⟨?_, ?_, ?_⟩
  · exact ancestor_html_resolution.1 chainA 1 5 (by decide) (by decide) (by decide) (by decide)
  · exact ancestor_html_resolution.2.1 chainB 9 (by decide) (by decide) (by decide)
      (by decide) (by decide)
      (by rw [show (chainB 3).html = bigHTML from rfl, bigHTML_length]; omega)
  · exact ancestor_html_resolution.2.2 chainA 3 1 "cur" (by decide) (by decide)

theorem ascendLoop_badChain (fuel : Nat) : ∀ (i : Nat) (cur : String),
    ascendLoop badChain fuel i cur = none := by
  induction fuel with
  | zero => intro i cur; rfl
  | succ f ih =>
      intro i cur
      have hs : ¬ 8000 < (badChain (i + 1)).html.length := by
        show ¬ 8000 < ("<div></div>" : String).length
        decide
      have hr : isRootTag (badChain (i + 1)).tag = false := by
        show isRootTag "div" = false
        decide
      rw [ascendLoop_step_continue badChain f i cur hs hr]
      exact ih (i + 1) ((badChain (i + 1)).html)

/-- C9 counterexample: on the malformed chain whose parent query keeps
yielding non-root elements under the size ceiling, the ascent never exits —
there is no maximum ascent cap in the code, so the `while (true)` loop runs
forever on this input. -/
theorem ancestor_ascent_diverges_on_malformed_dom : ascendDiverges badChain := by
  intro fuel
  exact ascendLoop_badChain fuel 0 ((badChain 0).html)

theorem ascendLoop_exit_terminates (chain : Nat → DomNode) (k : Nat) :
    ∀ (i fuel : Nat) (cur : String),
      stepExit (chain (i + 1 + k)) = true → k < fuel →
      ∃ r, ascendLoop chain fuel i cur = some r := by
  induction k with
  | zero =>
      intro i fuel cur hx hf
      obtain ⟨f, rfl⟩ : ∃ f, fuel = f + 1 := ⟨fuel - 1, by omega⟩
      simp only [Nat.add_zero] at hx
      by_cases hs : 8000 < (chain (i + 1)).html.length
      · exact ⟨cur, ascendLoop_step_size chain f i cur hs⟩
      · have hr : isRootTag (chain (i + 1)).tag = true := by
          simp [stepExit] at hx
          rcases hx with h | h
          · exact absurd h hs
          · exact h
        exact ⟨(chain (i + 1)).html, ascendLoop_step_root chain f i cur (by omega) hr⟩
  | succ k ih =>
      intro i fuel cur hx hf
      obtain ⟨f, rfl⟩ : ∃ f, fuel = f + 1 := ⟨fuel - 1, by omega⟩
      by_cases hex : stepExit (chain (i + 1)) = true
      · by_cases hs : 8000 < (chain (i + 1)).html.length
        · exact ⟨cur, ascendLoop_step_size chain f i cur hs⟩
        · have hr : isRootTag (chain (i + 1)).tag = true := by
            simp [stepExit] at hex
            rcases hex with h | h
            · exact absurd h hs
            · exact h
          exact ⟨(chain (i + 1)).html, ascendLoop_step_root chain f i cur (by omega) hr⟩
      · simp [stepExit, not_or] at hex
        obtain ⟨hs1, hr1⟩ := hex
        rw [ascendLoop_step_continue chain f i cur (by omega) hr1]
        have hx2 : stepExit (chain (i + 1 + 1 + k)) = true := by
          have e : i + 1 + (k + 1) = i + 1 + 1 + k := by omega
          rwa [e] at hx
        exact ih (i + 1) f ((chain (i + 1)).html) hx2 (by omega)

/-- C9 (amended): the ascent has no defensive iteration cap; it terminates
exactly when the chain triggers an exit condition — some ancestor's
serialization exceeds 8000 characters or some ancestor is a root-level
element.  Whenever such an ancestor exists (at position `k + 1`), the loop
exits within `k + 1` iterations; on a malformed DOM with no such ancestor it
loops forever (see the counterexample). -/
theorem ancestor_ascent_terminates_on_exit_condition (chain : Nat → DomNode)
    (k fuel : Nat) (hx : stepExit (chain (k + 1)) = true) (hf : k < fuel) :
    ∃ r, getAncestorHTML chain fuel = some r := by
  have hx0 : stepExit (chain (0 + 1 + k)) = true := by
    have e : k + 1 = 0 + 1 + k := by omega
    rwa [e] at hx
  have h := ascendLoop_exit_terminates chain k 0 fuel ((chain 0).html) hx0 hf
  simpa [getAncestorHTML] using h

/-- Witness for C9's amended theorem: `chainA` has a root-level ancestor at
position 2, so the ascent terminates with fuel 5. -/
theorem ancestor_ascent_terminates_on_exit_condition_witness :
    stepExit (chainA 2) = true ∧ ∃ r, getAncestorHTML chainA 5 = some r :=
  ⟨by decide, ancestor_ascent_terminates_on_exit_condition chainA 1 5 (by decide) (by decide)⟩
